import Mathlib

/-!
Shallow embedding of the SafeRun scan pipeline core
(`src/core/sandbox.py`, `src/core/threat_detector.py`,
`src/core/isolation.py`, `src/core/monitor.py`,
`src/utils/file_analyzer.py`), with theorems checking the
natural-language specification against the code.

Python floats are modelled as exact rationals; `round(x, 2)` is modelled
as round-half-to-even on `100 * x` (Python 3 banker's rounding).
Platform-dependent probes (file readability, executable bit, regex hits,
backend availability, observed process activity) are oracle inputs.
-/

namespace SafeRun

/-! ## Definitions -/

/-! ### Rounding (Python `round(x, 2)`) -/

/-- Round-half-to-even of a rational to an integer, as Python's `round`
(written with the executable `Rat.floor`). -/
def roundHalfEven (x : ℚ) : ℤ :=
  if x - (Rat.floor x : ℚ) < 1/2 then Rat.floor x
  else if 1/2 < x - (Rat.floor x : ℚ) then Rat.floor x + 1
  else if Rat.floor x % 2 = 0 then Rat.floor x else Rat.floor x + 1

/-- Python `round(x, 2)`: round-half-to-even at two decimal places. -/
def roundTo2 (x : ℚ) : ℚ := (roundHalfEven (x * 100) : ℚ) / 100

/-- Contiguous containment of `sub` in the second list (Python's `in`
on str/bytes). -/
def seqIn [BEq α] : List α → List α → Bool
  | [], _ => true
  | _ :: _, [] => false
  | sub, b :: bs => List.isPrefixOf sub (b :: bs) || seqIn sub bs

/-- Substring test: Python's `sub in s` on strings. -/
def strIn (sub s : String) : Bool := seqIn sub.toList s.toList

/-- Python's `str.lower()`, character-wise (ASCII; all fixed tables in
the source are ASCII). -/
def strLower (s : String) : String := String.mk (s.data.map Char.toLower)

/-! ### Severity levels and weights (`threat_detector.py`) -/

/-- `ThreatLevel` enum of `threat_detector.py`. -/
inductive ThreatLevel
  | none
  | low
  | medium
  | high
  | critical
deriving DecidableEq, Repr

/-- The weight lookup in `ThreatDetector.analyze_file` (lines 131-136):
a dict with keys CRITICAL/HIGH/MEDIUM/LOW and `.get(level, 0.1)`, so any
level outside the table (only `NONE`) falls to the default `0.1`. -/
def staticSeverityWeight : ThreatLevel → ℚ
  | .critical => 1
  | .high => 4/10
  | .medium => 2/10
  | .low => 1/10
  | .none => 1/10

/-- The identical weight lookup in `ThreatDetector.analyze_report`
(lines 166-171), again with default `0.1` via `.get(sig.severity, 0.1)`. -/
def dynamicSeverityWeight : ThreatLevel → ℚ
  | .critical => 1
  | .high => 4/10
  | .medium => 2/10
  | .low => 1/10
  | .none => 1/10

/-! ### Combined score (`sandbox.py` line 128) -/

/-- `round(min(static_threat_score + dynamic_score, 1.0), 2)`. -/
def combined_threat_score (s d : ℚ) : ℚ := roundTo2 (min (s + d) 1)

/-! ### Static keyword analysis (`ThreatDetector.analyze_file`) -/

/-- A finding appended by `ThreatDetector.analyze_file`. -/
inductive TDThreat
  | extension (details : String)
  | script (details : String)
  | keyword (details : List Char) (level : ThreatLevel)
  | error
deriving DecidableEq, Repr

/-- Result dict of `analyze_file` / `analyze_report`. -/
structure TDResult where
  threat_score : ℚ
  threats : List TDThreat
deriving DecidableEq, Repr

/-- Extensions scored `0.2` in `analyze_file` (line 103). -/
def executableExts : List String := [".exe", ".dll", ".bat", ".ps1"]

/-- Extensions scored `0.1` in `analyze_file` (line 106). -/
def scriptExts : List String := [".py", ".js", ".vba"]

/-- The fixed byte-pattern table of `analyze_file` (lines 114-127). -/
def keywords : List (List Char × ThreatLevel) :=
  [("cmd.exe".toList, .medium),
   ("powershell".toList, .medium),
   ("CreateProcess".toList, .high),
   ("WriteProcessMemory".toList, .high),
   ("curl".toList, .low),
   ("wget".toList, .low),
   ("socket".toList, .medium),
   ("registry".toList, .medium),
   ("os.system".toList, .medium),
   ("eval".toList, .high),
   ("exec".toList, .high),
   ("malicious.example.com".toList, .high)]

/-- One iteration of the keyword loop in `analyze_file` (lines 129-138). -/
def keywordStep (content : List Char) (acc : ℚ × List TDThreat)
    (kv : List Char × ThreatLevel) : ℚ × List TDThreat :=
  if seqIn kv.1 content then
    (acc.1 + staticSeverityWeight kv.2, acc.2 ++ [TDThreat.keyword kv.1 kv.2])
  else acc

/-- `ThreatDetector.analyze_file` (lines 97-146). `ext` is the lowered
`os.path.splitext` extension of the path; `content` is the raw bytes, or
`none` when reading the file raises (the `except` branch). -/
def analyze_file (ext : String) (content : Option (List Char)) : TDResult :=
  let base : ℚ × List TDThreat :=
    if ext ∈ executableExts then (2/10, [TDThreat.extension ext])
    else if ext ∈ scriptExts then (1/10, [TDThreat.script ext])
    else (0, [])
  match content with
  | Option.none => { threat_score := min base.1 1, threats := base.2 ++ [TDThreat.error] }
  | Option.some c =>
    let r := keywords.foldl (keywordStep c) base
    { threat_score := min r.1 1, threats := r.2 }

/-! ### Signatures and dynamic analysis (`ThreatDetector.analyze_report`) -/

/-- `ThreatSignature` of `threat_detector.py`. -/
structure ThreatSignature where
  id : String
  name : String
  description : String
  indicators : List String
  severity : ThreatLevel
  category : String
  platforms : List String
deriving DecidableEq, Repr

/-- The fixed registry loaded by `ThreatDetector._load_signatures`. -/
def loadedSignatures : List ThreatSignature :=
  [{ id := "SIG-001", name := "System File Access",
     description := "Accesses sensitive system files",
     indicators := ["/etc/passwd", "C:\\Windows\\System32\\config"],
     severity := .high, category := "File Access",
     platforms := ["linux", "windows", "macos"] },
   { id := "SIG-002", name := "Registry Modification",
     description := "Modifies autorun registry keys",
     indicators := ["HKEY_LOCAL_MACHINE\\Software\\Microsoft\\Windows\\CurrentVersion\\Run"],
     severity := .medium, category := "Registry Modification",
     platforms := ["windows"] },
   { id := "SIG-003", name := "Suspicious Network Connection",
     description := "Connects to common malicious ports or domains",
     indicators := [":4444", ":1337", ":31337", ":8080", "malicious.example.com"],
     severity := .high, category := "Network Activity",
     platforms := ["all"] }]

/-- A finding appended by `analyze_report` (lines 172-178). -/
structure DynThreat where
  signature_id : String
  signature_name : String
  threat_level : ThreatLevel
  category : String
  details : String
deriving DecidableEq, Repr

/-- Result of `analyze_report`. -/
structure DynResult where
  threat_score : ℚ
  threats : List DynThreat
deriving DecidableEq, Repr

/-- Monitor output as consumed by `analyze_report`: each record already
serialized to its lowered `json.dumps` text (`data_str`, line 160). -/
structure MonitorOutput where
  file_operations : List (List Char)
  network_activity : List (List Char)
  registry_operations : List (List Char)
  threat_score : Int
deriving DecidableEq, Repr

/-- One signature check against one serialized record (lines 161-179):
the platform filter, then the first matching indicator wins (`break`),
adding one severity-weighted increment and one finding. -/
def sigStep (sysPlatform : String) (entry : List Char)
    (acc : ℚ × List DynThreat) (sig : ThreatSignature) : ℚ × List DynThreat :=
  if strLower sysPlatform ∉ sig.platforms.map strLower ∧ "all" ∉ sig.platforms then
    acc
  else
    match sig.indicators.find? (fun ind => seqIn (strLower ind).toList entry) with
    | Option.some ind =>
        (acc.1 + dynamicSeverityWeight sig.severity,
         acc.2 ++ [{ signature_id := sig.id, signature_name := sig.name,
                     threat_level := sig.severity, category := sig.category,
                     details := ind }])
    | Option.none => acc

/-- `ThreatDetector.analyze_report` (lines 148-190). `report = none`
models the empty dict (`report or {}` with all `.get` defaults). -/
def analyze_report (sysPlatform : String) (sigs : List ThreatSignature)
    (report : Option MonitorOutput) : DynResult :=
  let r := report.getD
    { file_operations := [], network_activity := [], registry_operations := [],
      threat_score := 0 }
  let all_entries := r.file_operations ++ r.network_activity ++ r.registry_operations
  let acc := all_entries.foldl
    (fun acc entry => sigs.foldl (sigStep sysPlatform entry) acc)
    ((0 : ℚ), ([] : List DynThreat))
  { threat_score := min acc.1 1, threats := acc.2 }

/-! ### Isolation layer (`isolation.py`) -/

/-- Level normalization in both isolation constructors (lines 42-44 and
108-110): lowercase, and anything outside low/medium/high becomes
`medium` with a warning. -/
def normalizeLevel (lvl : String) : String :=
  let l := strLower lvl
  if l ∈ ["low", "medium", "high"] then l else "medium"

/-- The two isolation variants, each carrying the (normalized) security
level captured at construction time. -/
inductive IsolationEnv
  | container (level : String)
  | process (level : String)
deriving DecidableEq, Repr

/-- The security level an isolation environment was constructed with —
the level its `setup`/`execute` actually use. -/
def IsolationEnv.security_level : IsolationEnv → String
  | .container lvl => lvl
  | .process lvl => lvl

/-- `get_isolation_environment` (lines 141-154): Container first when
requested and available, Process as fallback (or when requested), else
`RuntimeError`. Availability probes are oracle booleans. -/
def get_isolation_environment (method level : String)
    (containerAvailable processAvailable : Bool) : Except String IsolationEnv :=
  let m := strLower method
  if m = "container" ∧ containerAvailable = true then
    Except.ok (IsolationEnv.container (normalizeLevel level))
  else if (m = "process" ∨ m = "container") ∧ processAvailable = true then
    Except.ok (IsolationEnv.process (normalizeLevel level))
  else
    Except.error "No supported isolation method available."

/-! ### ThreatDetector and Sandbox construction -/

/-- `detection_sensitivity` table of `ThreatDetector.__init__`. -/
def detectionSensitivity (lvl : String) : ℚ :=
  if strLower lvl = "low" then 3/10
  else if strLower lvl = "medium" then 5/10
  else if strLower lvl = "high" then 7/10
  else 5/10

/-- State of a constructed `ThreatDetector`. -/
structure ThreatDetectorState where
  security_level : String
  isolation_method : String
  isolation_env : IsolationEnv
  detection_sensitivity : ℚ
  signatures : List ThreatSignature
deriving DecidableEq, Repr

/-- `ThreatDetector.__init__` (lines 52-64): resolves
`isolation_method or "container"`, then calls
`get_isolation_environment`, which raises when no backend is available. -/
def ThreatDetector.init (security_level : String) (isolation_method : Option String)
    (containerAvailable processAvailable : Bool) : Except String ThreatDetectorState :=
  let method := isolation_method.getD "container"
  match get_isolation_environment method security_level containerAvailable processAvailable with
  | Except.error e => Except.error e
  | Except.ok env =>
      Except.ok { security_level := security_level, isolation_method := method,
                  isolation_env := env,
                  detection_sensitivity := detectionSensitivity security_level,
                  signatures := loadedSignatures }

/-- State of a constructed `Sandbox`. -/
structure SandboxState where
  security_level : String
  isolation_method : String
  threat_detector : ThreatDetectorState
  isolation_env : IsolationEnv
deriving DecidableEq, Repr

/-- `Sandbox.__init__` (lines 17-29): constructs the `ThreatDetector`
(line 24, itself requiring an isolation backend) and then its own
isolation environment (line 26); either failure propagates. -/
def Sandbox.init (isolation_method security_level : String)
    (containerAvailable processAvailable : Bool) : Except String SandboxState :=
  match ThreatDetector.init security_level (Option.some isolation_method)
      containerAvailable processAvailable with
  | Except.error e => Except.error e
  | Except.ok td =>
    match get_isolation_environment isolation_method security_level
        containerAvailable processAvailable with
    | Except.error e => Except.error e
    | Except.ok env =>
        Except.ok { security_level := security_level,
                    isolation_method := isolation_method,
                    threat_detector := td, isolation_env := env }

/-! ### FileAnalyzer (`utils/file_analyzer.py`) -/

/-- A threat dict appended by `FileAnalyzer.analyze`. -/
structure FAThreat where
  signature_name : String
  threat_level : ℚ
  details : String
deriving DecidableEq, Repr

/-- Result dict of `FileAnalyzer.analyze`; absent keys are `none`/`[]`
(matching the orchestrator's `.get` defaults). -/
structure FAResult where
  error : Option String := Option.none
  filename : Option String := Option.none
  file_hash : Option String := Option.none
  threat_level : ℚ := 0
  threats : List FAThreat := []
deriving DecidableEq, Repr

/-- Abstract view of the target file; platform-dependent probes
(`os.path.exists`, readability, `_is_executable`, the regex hits of
`_check_script_for_suspicious_patterns`) are oracle inputs. -/
structure FileInfo where
  fexists : Bool
  name : String
  ext : String
  readable : Bool
  is_executable : Bool
  suspiciousPatternNames : List String
  hash : String
deriving DecidableEq, Repr

/-- Script extensions checked by `FileAnalyzer.analyze` (line 38). -/
def scriptFileExts : List String := [".sh", ".py", ".bat", ".ps1"]

/-- `FileAnalyzer.analyze` (lines 12-81): missing file returns the
explicit error dict with `threat_level = 0.0`; an analysis exception
returns `threat_level = 0.5`; otherwise executable/script scoring,
capped at 1.0 and rounded to two decimals. -/
def FileAnalyzer.analyze (f : FileInfo) : FAResult :=
  if f.fexists = false then
    { error := Option.some "File not found", threat_level := 0 }
  else if f.readable = false then
    { error := Option.some "Analysis failed", filename := Option.some f.name,
      threat_level := 1/2 }
  else
    let execPart : ℚ × List FAThreat :=
      if f.is_executable then
        (3/10, [{ signature_name := "Executable file detected", threat_level := 3/10,
                  details := "The file is an executable, which could perform system-level operations." }])
      else (0, [])
    let scriptPart : ℚ × List FAThreat :=
      if f.ext ∈ scriptFileExts then
        (1/10 + (f.suspiciousPatternNames.length : ℚ) / 10,
         [{ signature_name := "Script file detected", threat_level := 1/10,
            details := "Script files may contain commands that alter system behavior." }] ++
         f.suspiciousPatternNames.map (fun p =>
           { signature_name := p, threat_level := 1/10,
             details := "Suspicious pattern found" }))
      else (0, [])
    let score := min (execPart.1 + scriptPart.1) 1
    { filename := Option.some f.name, file_hash := Option.some f.hash,
      threat_level := roundTo2 score, threats := execPart.2 ++ scriptPart.2 }

/-! ### Sandbox orchestrator (`Sandbox.execute_file`) -/

/-- Outcome of the isolation environment's `execute` call: success with
backend exit code and optional pid, or a raised exception. -/
inductive ExecOutcome
  | success (exit_code : Int) (pid : Option Nat)
  | failure
deriving DecidableEq, Repr

/-- Observable side-effect events of one scan, recording the security
level the isolation environment actually uses. -/
inductive SandboxEvent
  | isoSetup
  | isoExecute (level : String)
  | monitorStart
  | monitorStop
  | cleanup
deriving DecidableEq, Repr

/-- A static or dynamic finding in the combined report list
(`combined_threats = static_threats + dynamic_threats`, line 131). -/
inductive ReportThreat
  | static (t : FAThreat)
  | dynamic (t : DynThreat)
deriving DecidableEq, Repr

/-- The final execution report (`sandbox.py` lines 134-153). -/
structure Report where
  filename : String
  file_hash : Option String
  status : String
  exit_code : Int
  threat_level : ℚ
  threats : List ReportThreat
  file_operations : List (List Char)
  network_activity : List (List Char)
  registry_operations : List (List Char)
deriving DecidableEq, Repr

/-- The escalation step of `execute_file` (lines 96-98): a static score
above 0.2 overwrites the sandbox's `security_level` attribute with
"high". Nothing else on the state changes. -/
def escalateLevel (sb : SandboxState) (static_threat_score : ℚ) : SandboxState :=
  if static_threat_score > 2/10 then { sb with security_level := "high" } else sb

/-- `Sandbox.execute_file` (lines 84-157). `copyOk = false` models an
I/O error in `shutil.copy`; a missing source file also raises there.
`outcome` is what the isolation environment's `execute` does; `monitor`
is the monitoring flag; `monitorOutput` is what `stop_monitoring` would
return. Returns the report (or the propagated exception) plus the
emitted side-effect events. -/
def Sandbox.execute_file (sb : SandboxState) (sysPlatform : String) (f : FileInfo)
    (copyOk : Bool) (outcome : ExecOutcome) (monitor : Bool)
    (monitorOutput : MonitorOutput) : Except String Report × List SandboxEvent :=
  let analysis := FileAnalyzer.analyze f
  let static_threat_score := analysis.threat_level
  let static_threats := analysis.threats
  let file_name := analysis.filename.getD f.name
  if f.fexists = false ∨ copyOk = false then
    (Except.error "FileNotFoundError", [])
  else
    let sb := escalateLevel sb static_threat_score
    let envSetupEvents : List SandboxEvent :=
      match sb.isolation_env with
      | IsolationEnv.container _ => [SandboxEvent.isoSetup]
      | IsolationEnv.process _ => []
    let execEvents := envSetupEvents ++
      [SandboxEvent.isoExecute sb.isolation_env.security_level]
    let finish := fun (execution_status : String) (exit_code : Int)
        (monitor_results : Option MonitorOutput) (monEvents : List SandboxEvent) =>
      let dyn := analyze_report sysPlatform sb.threat_detector.signatures monitor_results
      let total := combined_threat_score static_threat_score dyn.threat_score
      let report : Report :=
        { filename := file_name, file_hash := analysis.file_hash,
          status := execution_status, exit_code := exit_code, threat_level := total,
          threats := static_threats.map ReportThreat.static ++
                     dyn.threats.map ReportThreat.dynamic,
          file_operations := (monitor_results.map MonitorOutput.file_operations).getD [],
          network_activity := (monitor_results.map MonitorOutput.network_activity).getD [],
          registry_operations := (monitor_results.map MonitorOutput.registry_operations).getD [] }
      (Except.ok report, execEvents ++ monEvents ++ [SandboxEvent.cleanup])
    if sb.isolation_method = "container" then
      match outcome with
      | ExecOutcome.success e _ => finish "completed" e Option.none []
      | ExecOutcome.failure => finish "failed" (-1) Option.none []
    else
      match outcome with
      | ExecOutcome.success _ p =>
        if monitor && p.isSome then
          finish "completed" 0 (Option.some monitorOutput)
            [SandboxEvent.monitorStart, SandboxEvent.monitorStop]
        else finish "completed" 0 Option.none []
      | ExecOutcome.failure => finish "failed" (-1) Option.none []

/-! ### Process monitor (`monitor.py`) -/

/-- A file-access record (`monitor.py` lines 120-123). -/
structure FileRec where
  timestamp : Nat
  path : String
deriving DecidableEq, Repr

/-- A network-connection record (lines 136-139). -/
structure NetRec where
  timestamp : Nat
  remote : String
deriving DecidableEq, Repr

/-- A registry-activity record (lines 153-157). -/
structure RegRec where
  timestamp : Nat
  dll : String
  key : String
deriving DecidableEq, Repr

/-- The monitor's mutable session state (`monitoring_data` plus
`threat_score`). -/
structure MonitorState where
  file_accesses : List FileRec
  network_connections : List NetRec
  registry_activities : List RegRec
  threat_score : Int
deriving DecidableEq, Repr

/-- `suspicious_patterns["files"]`. -/
def suspiciousFilePatterns : List String :=
  ["C:\\Windows\\System32\\config", "/etc/passwd"]

/-- `suspicious_patterns["network"]`. -/
def suspiciousNetworkPatterns : List String :=
  ["malicious.example.com", ":4444", ":1337", ":31337"]

/-- `suspicious_patterns["registry"]`. -/
def suspiciousRegistryPatterns : List String :=
  ["HKEY_LOCAL_MACHINE\\SOFTWARE\\Microsoft\\Windows\\CurrentVersion\\Run",
   "HKEY_CURRENT_USER\\Software\\Microsoft\\Windows\\CurrentVersion\\Run"]

/-- One open-file observation in `_monitor_file_activity` (lines
117-126): the append and the `+10`-per-matching-pattern scoring are both
inside the not-yet-recorded guard. -/
def processFileObservation (now : Nat) (st : MonitorState) (path : String) :
    MonitorState :=
  if st.file_accesses.any (fun f => f.path = path) then st
  else
    { st with
      file_accesses := st.file_accesses ++ [{ timestamp := now, path := path }],
      threat_score := st.threat_score +
        10 * (suspiciousFilePatterns.countP (fun p => strIn p path) : Int) }

/-- `_monitor_file_activity` on one polling tick (lines 115-128):
iterate over the currently open file paths. -/
def monitor_file_activity (now : Nat) (openFiles : List String)
    (st : MonitorState) : MonitorState :=
  openFiles.foldl (processFileObservation now) st

/-- A connection as reported by `psutil`: status plus optional remote
ip/port. -/
structure Connection where
  status : String
  raddr : Option (String × Nat)
deriving DecidableEq, Repr

/-- `f"{conn.raddr.ip}:{conn.raddr.port}"`. -/
def remoteOf (r : String × Nat) : String := r.1 ++ ":" ++ toString r.2

/-- One connection observation in `_monitor_network_activity` (lines
132-142): the record append is behind the not-yet-recorded guard, but
the `+20`-per-matching-pattern scoring loop sits outside that guard and
runs for every established connection on every tick. -/
def processNetObservation (now : Nat) (st : MonitorState) (c : Connection) :
    MonitorState :=
  match c.raddr with
  | Option.none => st
  | Option.some r =>
    if c.status = "ESTABLISHED" then
      let remote := remoteOf r
      let st1 :=
        if st.network_connections.any (fun n => n.remote = remote) then st
        else { st with network_connections :=
                 st.network_connections ++ [{ timestamp := now, remote := remote }] }
      { st1 with threat_score := st1.threat_score +
          20 * (suspiciousNetworkPatterns.countP (fun p => strIn p remote) : Int) }
    else st

/-- `_monitor_network_activity` on one polling tick (lines 130-144). -/
def monitor_network_activity (now : Nat) (conns : List Connection)
    (st : MonitorState) : MonitorState :=
  conns.foldl (processNetObservation now) st

/-- One loaded-module observation in `_monitor_registry_activity`
(lines 148-158): lowered dll path, `advapi32.dll` filter, then append
and `+5` both inside the not-yet-recorded guard. -/
def processDllObservation (now : Nat) (st : MonitorState) (dllPath : String) :
    MonitorState :=
  let path := strLower dllPath
  if strIn "advapi32.dll" path then
    if st.registry_activities.any (fun r => r.dll = path) then st
    else
      { st with
        registry_activities := st.registry_activities ++
          [{ timestamp := now, dll := path,
             key := suspiciousRegistryPatterns.getD 0 "" }],
        threat_score := st.threat_score + 5 }
  else st

/-- `_monitor_registry_activity` on one polling tick (lines 146-160). -/
def monitor_registry_activity (now : Nat) (dlls : List String)
    (st : MonitorState) : MonitorState :=
  dlls.foldl (processDllObservation now) st

/-- One iteration of the `_monitor_process` polling loop (lines
96-107): file then network activity, registry activity only on
Windows. -/
def monitorTick (isWindows : Bool) (now : Nat) (openFiles : List String)
    (conns : List Connection) (dlls : List String) (st : MonitorState) :
    MonitorState :=
  let st1 := monitor_file_activity now openFiles st
  let st2 := monitor_network_activity now conns st1
  if isWindows then monitor_registry_activity now dlls st2 else st2

/-- The session invariant claimed by the spec: within one monitoring
session, no two records of the same class share a deduplication key
(file path, remote endpoint, dll path). -/
def NoDupKeys (st : MonitorState) : Prop :=
  (st.file_accesses.map FileRec.path).Nodup ∧
  (st.network_connections.map NetRec.remote).Nodup ∧
  (st.registry_activities.map RegRec.dll).Nodup

instance (st : MonitorState) : Decidable (NoDupKeys st) := by
  unfold NoDupKeys; infer_instance

/-! ## Theorems -/

/-! ### Rounding lemmas -/

theorem ratFloor_eq (x : ℚ) : Rat.floor x = ⌊x⌋ := by
  rw [Rat.floor_def]
  unfold Rat.floor
  split_ifs with h
  · rw [h]
    simp
  · rfl

theorem roundHalfEven_def (x : ℚ) : roundHalfEven x =
    if Int.fract x < 1/2 then ⌊x⌋
    else if 1/2 < Int.fract x then ⌊x⌋ + 1
    else if ⌊x⌋ % 2 = 0 then ⌊x⌋ else ⌊x⌋ + 1 := by
  unfold roundHalfEven Int.fract
  rw [ratFloor_eq]

theorem floor_le_roundHalfEven (x : ℚ) : ⌊x⌋ ≤ roundHalfEven x := by
  rw [roundHalfEven_def]
  split_ifs <;> omega

theorem roundHalfEven_le_floor_add_one (x : ℚ) : roundHalfEven x ≤ ⌊x⌋ + 1 := by
  rw [roundHalfEven_def]
  split_ifs <;> omega

theorem roundHalfEven_intCast (n : ℤ) : roundHalfEven (n : ℚ) = n := by
  rw [roundHalfEven_def]
  have h1 : Int.fract (n : ℚ) = 0 := Int.fract_intCast n
  rw [h1]
  norm_num

theorem roundHalfEven_mono {x y : ℚ} (h : x ≤ y) :
    roundHalfEven x ≤ roundHalfEven y := by
  rcases lt_or_le ⌊x⌋ ⌊y⌋ with hf | hf
  · calc roundHalfEven x ≤ ⌊x⌋ + 1 := roundHalfEven_le_floor_add_one x
      _ ≤ ⌊y⌋ := by omega
      _ ≤ roundHalfEven y := floor_le_roundHalfEven y
  · have hfe : ⌊x⌋ = ⌊y⌋ := le_antisymm (Int.floor_le_floor h) hf
    have hfr : Int.fract x ≤ Int.fract y := by
      unfold Int.fract
      rw [hfe]
      linarith
    rw [roundHalfEven_def x, roundHalfEven_def y, hfe]
    split_ifs <;> first | omega | linarith

theorem roundTo2_mono {x y : ℚ} (h : x ≤ y) : roundTo2 x ≤ roundTo2 y := by
  unfold roundTo2
  have h1 : roundHalfEven (x * 100) ≤ roundHalfEven (y * 100) :=
    roundHalfEven_mono (by linarith)
  have h2 : ((roundHalfEven (x * 100) : ℚ)) ≤ ((roundHalfEven (y * 100) : ℚ)) := by
    exact_mod_cast h1
  linarith

theorem roundTo2_nonneg {x : ℚ} (h : 0 ≤ x) : 0 ≤ roundTo2 x := by
  unfold roundTo2
  have h1 : (0 : ℤ) ≤ ⌊x * 100⌋ := Int.floor_nonneg.mpr (by linarith)
  have h2 : (0 : ℤ) ≤ roundHalfEven (x * 100) :=
    le_trans h1 (floor_le_roundHalfEven _)
  have h3 : (0 : ℚ) ≤ (roundHalfEven (x * 100) : ℚ) := by exact_mod_cast h2
  positivity

theorem roundTo2_intCast (n : ℤ) : roundTo2 ((n : ℚ) / 100) = (n : ℚ) / 100 := by
  unfold roundTo2
  have h1 : (n : ℚ) / 100 * 100 = (n : ℚ) := by ring
  rw [h1, roundHalfEven_intCast]

theorem roundTo2_one : roundTo2 1 = 1 := by
  have h := roundTo2_intCast 100
  norm_num at h
  exact h

theorem roundTo2_le_one {x : ℚ} (h : x ≤ 1) : roundTo2 x ≤ 1 := by
  calc roundTo2 x ≤ roundTo2 1 := roundTo2_mono h
    _ = 1 := roundTo2_one

/-! ### C1 -/

/-- Claim C1: the orchestrator's combined threat score equals
`min(static_score + dynamic_score, 1.0)` rounded to 2 decimals; for
nonnegative summands it lies in `[0.0, 1.0]`; it is order-independent in
its two summands, monotonically non-decreasing as score contributions
grow, and saturates at 1.0. -/
theorem C1_combined_score :
    (∀ s d : ℚ, combined_threat_score s d = roundTo2 (min (s + d) 1)) ∧
    (∀ s d : ℚ, 0 ≤ s → 0 ≤ d →
      0 ≤ combined_threat_score s d ∧ combined_threat_score s d ≤ 1) ∧
    (∀ s d : ℚ, combined_threat_score s d = combined_threat_score d s) ∧
    (∀ s d d' : ℚ, d ≤ d' →
      combined_threat_score s d ≤ combined_threat_score s d') ∧
    (∀ s d : ℚ, 1 ≤ s + d → combined_threat_score s d = 1) := by
  refine ⟨fun s d => rfl, ?_, ?_, ?_, ?_⟩
  · intro s d hs hd
    constructor
    · exact roundTo2_nonneg (le_min (by linarith) (by norm_num))
    · exact roundTo2_le_one (min_le_right _ _)
  · intro s d
    unfold combined_threat_score
    rw [add_comm]
  · intro s d d' h
    exact roundTo2_mono (min_le_min (by linarith) le_rfl)
  · intro s d h
    unfold combined_threat_score
    rw [min_eq_right h, roundTo2_one]

/-- Witness for C1 at concrete scores. -/
theorem C1_combined_score_witness :
    (0 ≤ combined_threat_score (3/10) (2/5) ∧
      combined_threat_score (3/10) (2/5) ≤ 1) ∧
    combined_threat_score (3/5) (3/5) = 1 :=
  ⟨C1_combined_score.2.1 (3/10) (2/5) (by norm_num) (by norm_num),
   C1_combined_score.2.2.2.2 (3/5) (3/5) (by norm_num)⟩

/-! ### C2 -/

/-- Claim C2 counterexample: the claim says a severity of `none`
contributes exactly 0, but both weight lookups send `NONE` to the dict
default `0.1`. -/
theorem C2_severity_weights_counterexample :
    staticSeverityWeight ThreatLevel.none = 1/10 ∧
    dynamicSeverityWeight ThreatLevel.none = 1/10 ∧
    ¬ staticSeverityWeight ThreatLevel.none = 0 ∧
    ¬ dynamicSeverityWeight ThreatLevel.none = 0 :=
  ⟨rfl, rfl, by norm_num [staticSeverityWeight], by norm_num [dynamicSeverityWeight]⟩

/-- Claim C2 (amended): in both static keyword analysis and dynamic
signature analysis every matched severity contributes exactly the fixed
weight critical=1.0, high=0.4, medium=0.2, low=0.1 from one shared
table; a severity of `none` would contribute the lookup default `0.1`
(not 0), but no `none` severity occurs in either fixed table. -/
theorem C2_severity_weights :
    (staticSeverityWeight .critical = 1 ∧ staticSeverityWeight .high = 4/10 ∧
     staticSeverityWeight .medium = 2/10 ∧ staticSeverityWeight .low = 1/10) ∧
    (∀ l, dynamicSeverityWeight l = staticSeverityWeight l) ∧
    (staticSeverityWeight .none = 1/10 ∧ dynamicSeverityWeight .none = 1/10) ∧
    (∀ (c : List Char) (acc : ℚ × List TDThreat) (kv : List Char × ThreatLevel),
      seqIn kv.1 c = true →
      (keywordStep c acc kv).1 = acc.1 + staticSeverityWeight kv.2) ∧
    (∀ (sysP : String) (entry : List Char) (acc : ℚ × List DynThreat)
        (sig : ThreatSignature) (ind : String),
      ¬ (strLower sysP ∉ sig.platforms.map strLower ∧ "all" ∉ sig.platforms) →
      sig.indicators.find? (fun i => seqIn (strLower i).toList entry) = Option.some ind →
      (sigStep sysP entry acc sig).1 = acc.1 + dynamicSeverityWeight sig.severity) ∧
    ThreatLevel.none ∉ keywords.map Prod.snd ∧
    (∀ sig ∈ loadedSignatures, sig.severity ≠ ThreatLevel.none) := by
  refine ⟨⟨rfl, rfl, rfl, rfl⟩, ?_, ⟨rfl, rfl⟩, ?_, ?_, by decide, by decide⟩
  · intro l
    cases l <;> rfl
  · intro c acc kv h
    simp [keywordStep, h]
  · intro sysP entry acc sig ind h1 h2
    unfold sigStep
    rw [if_neg h1, h2]

/-- Witness for C2 at concrete matches: a `low` keyword hit adds 0.1 in
the static scan; SIG-001 (`high`) adds 0.4 in the dynamic scan. -/
theorem C2_severity_weights_witness :
    (keywordStep "ab curl cd".toList ((0 : ℚ), ([] : List TDThreat))
        ("curl".toList, ThreatLevel.low)).1 = 0 + staticSeverityWeight ThreatLevel.low ∧
    (sigStep "linux" "/etc/passwd".toList ((0 : ℚ), ([] : List DynThreat))
        { id := "SIG-001", name := "System File Access",
          description := "Accesses sensitive system files",
          indicators := ["/etc/passwd", "C:\\Windows\\System32\\config"],
          severity := .high, category := "File Access",
          platforms := ["linux", "windows", "macos"] }).1 =
      0 + dynamicSeverityWeight ThreatLevel.high :=
  ⟨C2_severity_weights.2.2.2.1 _ _ _ (by decide),
   C2_severity_weights.2.2.2.2.1 "linux" _ _ _ "/etc/passwd" (by decide) (by decide)⟩

/-! ### C5 -/

/-- Claim C5: `get_isolation_environment` tries Container first when
"container" is requested and returns it if available, falls back to
Process; "process" requests only try Process; with no available tried
variant it fails with the no-isolation error. -/
theorem C5_isolation_selection :
    (∀ (lvl : String) (pa : Bool), get_isolation_environment "container" lvl true pa =
        Except.ok (IsolationEnv.container (normalizeLevel lvl))) ∧
    (∀ lvl : String, get_isolation_environment "container" lvl false true =
        Except.ok (IsolationEnv.process (normalizeLevel lvl))) ∧
    (∀ (lvl : String) (ca : Bool), get_isolation_environment "process" lvl ca true =
        Except.ok (IsolationEnv.process (normalizeLevel lvl))) ∧
    (∀ (lvl : String) (ca : Bool), get_isolation_environment "process" lvl ca false =
        Except.error "No supported isolation method available.") ∧
    (∀ lvl : String, get_isolation_environment "container" lvl false false =
        Except.error "No supported isolation method available.") := by
  have hc : strLower "container" = "container" := by decide
  have hp : strLower "process" = "process" := by decide
  have hne : ¬ (("process" : String) = "container") := by decide
  refine ⟨?_, ?_, ?_, ?_, ?_⟩
  · intro lvl pa
    simp [get_isolation_environment, hc]
  · intro lvl
    simp [get_isolation_environment, hc]
  · intro lvl ca
    simp [get_isolation_environment, hp, hne]
  · intro lvl ca
    simp [get_isolation_environment, hp, hne]
  · intro lvl
    simp [get_isolation_environment, hc]

/-! ### C10 -/

/-- Claim C10: both the `ThreatDetector` constructor and the `Sandbox`
constructor call the isolation-environment selector, so with no
available backend both raise before any analysis — static-only analysis
through these types is impossible without a working backend. -/
theorem C10_constructor_requires_backend :
    ∀ method level : String,
      ThreatDetector.init level (Option.some method) false false =
        Except.error "No supported isolation method available." ∧
      Sandbox.init method level false false =
        Except.error "No supported isolation method available." := by
  intro method level
  have h : ∀ m l : String, get_isolation_environment m l false false =
      Except.error "No supported isolation method available." := by
    intro m l
    simp [get_isolation_environment]
  constructor
  · unfold ThreatDetector.init
    simp [h]
  · unfold Sandbox.init ThreatDetector.init
    simp [h]

/-! ### Orchestrator lemmas -/

theorem escalateLevel_isolation_method (sb : SandboxState) (s : ℚ) :
    (escalateLevel sb s).isolation_method = sb.isolation_method := by
  unfold escalateLevel
  split_ifs <;> rfl

theorem escalateLevel_isolation_env (sb : SandboxState) (s : ℚ) :
    (escalateLevel sb s).isolation_env = sb.isolation_env := by
  unfold escalateLevel
  split_ifs <;> rfl

theorem escalateLevel_threat_detector (sb : SandboxState) (s : ℚ) :
    (escalateLevel sb s).threat_detector = sb.threat_detector := by
  unfold escalateLevel
  split_ifs <;> rfl

/-- Dynamic analysis of the empty report (`report or {}` with all
`.get` defaults): zero score, no findings. -/
theorem analyze_report_none (p : String) (sigs : List ThreatSignature) :
    analyze_report p sigs Option.none = { threat_score := 0, threats := [] } := by
  unfold analyze_report
  simp

/-! ### C8 -/

/-- Claim C8: for a path naming no existing file, static analysis
returns `threat_level = 0.0` with an explicit error marker, and the
orchestrator's scan raises in `_prepare_file` before any isolation
setup/execute call is made. -/
theorem C8_missing_file :
    ∀ (sb : SandboxState) (sysP : String) (f : FileInfo) (copyOk : Bool)
      (outcome : ExecOutcome) (monitor : Bool) (mo : MonitorOutput),
      f.fexists = false →
      (FileAnalyzer.analyze f).threat_level = 0 ∧
      (FileAnalyzer.analyze f).error = Option.some "File not found" ∧
      (Sandbox.execute_file sb sysP f copyOk outcome monitor mo).1 =
        Except.error "FileNotFoundError" ∧
      (∀ lvl, SandboxEvent.isoExecute lvl ∉
        (Sandbox.execute_file sb sysP f copyOk outcome monitor mo).2) ∧
      SandboxEvent.isoSetup ∉
        (Sandbox.execute_file sb sysP f copyOk outcome monitor mo).2 := by
  intro sb sysP f copyOk outcome monitor mo h
  have ha : FileAnalyzer.analyze f =
      { error := Option.some "File not found", threat_level := 0 } := by
    unfold FileAnalyzer.analyze
    rw [if_pos h]
  have he : Sandbox.execute_file sb sysP f copyOk outcome monitor mo =
      (Except.error "FileNotFoundError", []) := by
    unfold Sandbox.execute_file
    rw [if_pos (Or.inl h)]
  refine ⟨by rw [ha], by rw [ha], by rw [he], ?_, by rw [he]; simp⟩
  intro lvl
  rw [he]
  simp

/-- Witness for C8 on a concrete missing file. -/
theorem C8_missing_file_witness :
    (FileAnalyzer.analyze
      { fexists := false, name := "ghost.bin", ext := ".bin", readable := true,
        is_executable := false, suspiciousPatternNames := [], hash := "h" }).threat_level = 0 ∧
    (FileAnalyzer.analyze
      { fexists := false, name := "ghost.bin", ext := ".bin", readable := true,
        is_executable := false, suspiciousPatternNames := [], hash := "h" }).error =
      Option.some "File not found" ∧
    (Sandbox.execute_file
      { security_level := "medium", isolation_method := "process",
        threat_detector :=
          { security_level := "medium", isolation_method := "process",
            isolation_env := IsolationEnv.process "medium",
            detection_sensitivity := 1/2, signatures := loadedSignatures },
        isolation_env := IsolationEnv.process "medium" } "linux"
      { fexists := false, name := "ghost.bin", ext := ".bin", readable := true,
        is_executable := false, suspiciousPatternNames := [], hash := "h" }
      true (ExecOutcome.success 0 Option.none) true
      { file_operations := [], network_activity := [], registry_operations := [],
        threat_score := 0 }).1 = Except.error "FileNotFoundError" := by
  have h := C8_missing_file
    { security_level := "medium", isolation_method := "process",
      threat_detector :=
        { security_level := "medium", isolation_method := "process",
          isolation_env := IsolationEnv.process "medium",
          detection_sensitivity := 1/2, signatures := loadedSignatures },
      isolation_env := IsolationEnv.process "medium" } "linux"
    { fexists := false, name := "ghost.bin", ext := ".bin", readable := true,
      is_executable := false, suspiciousPatternNames := [], hash := "h" }
    true (ExecOutcome.success 0 Option.none) true
    { file_operations := [], network_activity := [], registry_operations := [],
      threat_score := 0 } rfl
  exact ⟨h.1, h.2.1, h.2.2.1⟩

/-! ### C4 -/

/-- Claim C4: when the execution step fails, the scan still returns a
report (never raises), with `status = "failed"`, `exit_code = -1`, and
the already-computed static findings in the report's threat analysis
(the dynamic pass on the empty monitor report adds nothing). -/
theorem C4_failed_execution_report :
    ∀ (sb : SandboxState) (sysP : String) (f : FileInfo) (monitor : Bool)
      (mo : MonitorOutput),
      f.fexists = true →
      ∃ rep : Report,
        (Sandbox.execute_file sb sysP f true ExecOutcome.failure monitor mo).1 =
          Except.ok rep ∧
        rep.status = "failed" ∧ rep.exit_code = -1 ∧
        rep.threats = (FileAnalyzer.analyze f).threats.map ReportThreat.static := by
  intro sb sysP f monitor mo h
  unfold Sandbox.execute_file
  rw [if_neg (by simp [h])]
  simp only [analyze_report_none]
  split_ifs
  · exact ⟨_, rfl, rfl, rfl, by simp⟩
  · exact ⟨_, rfl, rfl, rfl, by simp⟩

/-- Witness for C4 on a concrete file and failing execution. -/
theorem C4_failed_execution_report_witness :
    ∃ rep : Report,
      (Sandbox.execute_file
        { security_level := "medium", isolation_method := "process",
          threat_detector :=
            { security_level := "medium", isolation_method := "process",
              isolation_env := IsolationEnv.process "medium",
              detection_sensitivity := 1/2, signatures := loadedSignatures },
          isolation_env := IsolationEnv.process "medium" } "linux"
        { fexists := true, name := "tool.sh", ext := ".sh", readable := true,
          is_executable := true, suspiciousPatternNames := [], hash := "h" }
        true ExecOutcome.failure true
        { file_operations := [], network_activity := [], registry_operations := [],
          threat_score := 0 }).1 = Except.ok rep ∧
      rep.status = "failed" ∧ rep.exit_code = -1 ∧
      rep.threats = (FileAnalyzer.analyze
        { fexists := true, name := "tool.sh", ext := ".sh", readable := true,
          is_executable := true, suspiciousPatternNames := [], hash := "h" }).threats.map
        ReportThreat.static :=
  C4_failed_execution_report
    { security_level := "medium", isolation_method := "process",
      threat_detector :=
        { security_level := "medium", isolation_method := "process",
          isolation_env := IsolationEnv.process "medium",
          detection_sensitivity := 1/2, signatures := loadedSignatures },
      isolation_env := IsolationEnv.process "medium" } "linux"
    { fexists := true, name := "tool.sh", ext := ".sh", readable := true,
      is_executable := true, suspiciousPatternNames := [], hash := "h" }
    true
    { file_operations := [], network_activity := [], registry_operations := [],
      threat_score := 0 } rfl

/-- Concrete rounding fact: `round(0.3, 2) = 0.3`. -/
theorem roundTo2_three_tenths : roundTo2 (3/10) = 3/10 := by
  have h := roundTo2_intCast 30
  norm_num at h
  exact h

/-- `FileAnalyzer.analyze` on an existing readable executable with a
non-script extension: score 0.3 and the single executable finding. -/
theorem analyze_executable_file (name hash ext : String)
    (hext : ext ∉ scriptFileExts) :
    FileAnalyzer.analyze
      { fexists := true, name := name, ext := ext, readable := true,
        is_executable := true, suspiciousPatternNames := [], hash := hash } =
      { filename := Option.some name, file_hash := Option.some hash,
        threat_level := 3/10,
        threats := [{ signature_name := "Executable file detected",
                      threat_level := 3/10,
                      details := "The file is an executable, which could perform system-level operations." }] } := by
  unfold FileAnalyzer.analyze
  simp only [Bool.true_eq_false, if_false, if_true, if_neg hext]
  rw [show min ((3:ℚ)/10 + 0) 1 = 3/10 by norm_num [min_def], roundTo2_three_tenths]
  simp

/-- The side-effect event trace of a non-aborted scan: optional
container setup, one execute at the environment's construction-time
level, optional monitoring, then cleanup. -/
theorem execute_file_events (sb : SandboxState) (sysP : String) (f : FileInfo)
    (outcome : ExecOutcome) (monitor : Bool) (mo : MonitorOutput)
    (h : f.fexists = true) :
    (Sandbox.execute_file sb sysP f true outcome monitor mo).2 =
      (match sb.isolation_env with
        | IsolationEnv.container _ => [SandboxEvent.isoSetup]
        | IsolationEnv.process _ => []) ++
      SandboxEvent.isoExecute sb.isolation_env.security_level ::
      ((if sb.isolation_method = "container" then []
        else
          match outcome with
          | ExecOutcome.success _ p =>
            if monitor && p.isSome then
              [SandboxEvent.monitorStart, SandboxEvent.monitorStop]
            else []
          | ExecOutcome.failure => []) ++
       [SandboxEvent.cleanup]) := by
  unfold Sandbox.execute_file
  rw [if_neg (by simp [h])]
  simp only [escalateLevel_isolation_env, escalateLevel_isolation_method,
    escalateLevel_threat_detector]
  rcases outcome with ⟨e, p⟩ | _ <;>
    rcases henv : sb.isolation_env with l | l <;>
      split_ifs <;> simp [henv, apply_ite] <;> try (split_ifs <;> rfl)

/-! ### C3 -/

/-- Claim C3 counterexample: a scan constructed with requested security
level "low" whose static score (0.3) exceeds the 0.2 threshold still
executes through an isolation environment using level "low": the
escalation writes only the sandbox's own attribute, after the isolation
environment was already constructed, and the environment never re-reads
it. -/
theorem C3_escalation_counterexample :
    Sandbox.init "container" "low" true true = Except.ok
      { security_level := "low", isolation_method := "container",
        threat_detector :=
          { security_level := "low", isolation_method := "container",
            isolation_env := IsolationEnv.container "low",
            detection_sensitivity := 3/10, signatures := loadedSignatures },
        isolation_env := IsolationEnv.container "low" } ∧
    (FileAnalyzer.analyze
      { fexists := true, name := "evil.exe", ext := ".exe", readable := true,
        is_executable := true, suspiciousPatternNames := [], hash := "h" }).threat_level
      > 2/10 ∧
    SandboxEvent.isoExecute "low" ∈
      (Sandbox.execute_file
        { security_level := "low", isolation_method := "container",
          threat_detector :=
            { security_level := "low", isolation_method := "container",
              isolation_env := IsolationEnv.container "low",
              detection_sensitivity := 3/10, signatures := loadedSignatures },
          isolation_env := IsolationEnv.container "low" } "windows"
        { fexists := true, name := "evil.exe", ext := ".exe", readable := true,
          is_executable := true, suspiciousPatternNames := [], hash := "h" }
        true (ExecOutcome.success 0 Option.none) false
        { file_operations := [], network_activity := [], registry_operations := [],
          threat_score := 0 }).2 ∧
    SandboxEvent.isoExecute "high" ∉
      (Sandbox.execute_file
        { security_level := "low", isolation_method := "container",
          threat_detector :=
            { security_level := "low", isolation_method := "container",
              isolation_env := IsolationEnv.container "low",
              detection_sensitivity := 3/10, signatures := loadedSignatures },
          isolation_env := IsolationEnv.container "low" } "windows"
        { fexists := true, name := "evil.exe", ext := ".exe", readable := true,
          is_executable := true, suspiciousPatternNames := [], hash := "h" }
        true (ExecOutcome.success 0 Option.none) false
        { file_operations := [], network_activity := [], registry_operations := [],
          threat_score := 0 }).2 := by
  refine ⟨rfl, ?_, ?_, ?_⟩
  · rw [analyze_executable_file "evil.exe" "h" ".exe" (by decide)]
    norm_num
  · rw [execute_file_events _ _ _ _ _ _ rfl]
    simp [IsolationEnv.security_level]
  · rw [execute_file_events _ _ _ _ _ _ rfl]
    simp [IsolationEnv.security_level]

/-- Claim C3 (amended): a static score above 0.2 overwrites the
orchestrator's own `security_level` attribute with "high", but the
isolation environment keeps the level it was constructed with from the
original request, and every execution uses that construction-time level
— the escalation never propagates to isolation setup or execution. -/
theorem C3_escalation :
    (∀ (sb : SandboxState) (s : ℚ), s > 2/10 →
      (escalateLevel sb s).security_level = "high") ∧
    (∀ (sb : SandboxState) (s : ℚ),
      (escalateLevel sb s).isolation_env = sb.isolation_env) ∧
    (∀ (sb : SandboxState) (sysP : String) (f : FileInfo)
        (outcome : ExecOutcome) (monitor : Bool) (mo : MonitorOutput),
      f.fexists = true →
      SandboxEvent.isoExecute sb.isolation_env.security_level ∈
        (Sandbox.execute_file sb sysP f true outcome monitor mo).2) := by
  refine ⟨?_, escalateLevel_isolation_env, ?_⟩
  · intro sb s h
    unfold escalateLevel
    rw [if_pos h]
  · intro sb sysP f outcome monitor mo h
    rw [execute_file_events sb sysP f outcome monitor mo h]
    rcases henv : sb.isolation_env with l | l <;> simp [henv, IsolationEnv.security_level]

/-- Witness for C3 (amended) at a concrete state and score. -/
theorem C3_escalation_witness :
    (escalateLevel
      { security_level := "low", isolation_method := "container",
        threat_detector :=
          { security_level := "low", isolation_method := "container",
            isolation_env := IsolationEnv.container "low",
            detection_sensitivity := 3/10, signatures := loadedSignatures },
        isolation_env := IsolationEnv.container "low" } (3/10)).security_level =
      "high" ∧
    SandboxEvent.isoExecute "medium" ∈
      (Sandbox.execute_file
        { security_level := "medium", isolation_method := "process",
          threat_detector :=
            { security_level := "medium", isolation_method := "process",
              isolation_env := IsolationEnv.process "medium",
              detection_sensitivity := 1/2, signatures := loadedSignatures },
          isolation_env := IsolationEnv.process "medium" } "linux"
        { fexists := true, name := "tool.sh", ext := ".sh", readable := true,
          is_executable := true, suspiciousPatternNames := [], hash := "h" }
        true ExecOutcome.failure false
        { file_operations := [], network_activity := [], registry_operations := [],
          threat_score := 0 }).2 :=
  ⟨C3_escalation.1 _ (3/10) (by norm_num),
   C3_escalation.2.2
    { security_level := "medium", isolation_method := "process",
      threat_detector :=
        { security_level := "medium", isolation_method := "process",
          isolation_env := IsolationEnv.process "medium",
          detection_sensitivity := 1/2, signatures := loadedSignatures },
      isolation_env := IsolationEnv.process "medium" } "linux"
    { fexists := true, name := "tool.sh", ext := ".sh", readable := true,
      is_executable := true, suspiciousPatternNames := [], hash := "h" }
    ExecOutcome.failure false
    { file_operations := [], network_activity := [], registry_operations := [],
      threat_score := 0 } rfl⟩

/-! ### C9 -/

/-- Claim C9 counterexample: a `.exe` file whose bytes contain
`CreateProcess` but also another scanned keyword (`eval`) scores
0.2 + 0.4 + 0.4 capped to 1.0, not 0.6, with three findings — so the
claim is false as stated for every such file. -/
theorem C9_exe_createprocess_counterexample :
    seqIn "CreateProcess".toList "CreateProcess eval".toList = true ∧
    (analyze_file ".exe" (Option.some "CreateProcess eval".toList)).threat_score = 1 ∧
    (analyze_file ".exe" (Option.some "CreateProcess eval".toList)).threats.length = 3 ∧
    ¬ (analyze_file ".exe" (Option.some "CreateProcess eval".toList)).threat_score
      = 6/10 := by
  have hm : (".exe" : String) ∈ executableExts := by decide
  have h1 : seqIn "cmd.exe".toList "CreateProcess eval".toList = false := by decide
  have h2 : seqIn "powershell".toList "CreateProcess eval".toList = false := by decide
  have h3 : seqIn "CreateProcess".toList "CreateProcess eval".toList = true := by decide
  have h4 : seqIn "WriteProcessMemory".toList "CreateProcess eval".toList = false := by
    decide
  have h5 : seqIn "curl".toList "CreateProcess eval".toList = false := by decide
  have h6 : seqIn "wget".toList "CreateProcess eval".toList = false := by decide
  have h7 : seqIn "socket".toList "CreateProcess eval".toList = false := by decide
  have h8 : seqIn "registry".toList "CreateProcess eval".toList = false := by decide
  have h9 : seqIn "os.system".toList "CreateProcess eval".toList = false := by decide
  have h10 : seqIn "eval".toList "CreateProcess eval".toList = true := by decide
  have h11 : seqIn "exec".toList "CreateProcess eval".toList = false := by decide
  have h12 : seqIn "malicious.example.com".toList "CreateProcess eval".toList = false := by
    decide
  have hr : analyze_file ".exe" (Option.some "CreateProcess eval".toList) =
      { threat_score := min (2/10 + 4/10 + 4/10) 1,
        threats := [TDThreat.extension ".exe",
                    TDThreat.keyword "CreateProcess".toList ThreatLevel.high,
                    TDThreat.keyword "eval".toList ThreatLevel.high] } := by
    unfold analyze_file
    simp only [keywords, List.foldl, keywordStep, hm, if_true, if_false,
      h1, h2, h3, h4, h5, h6, h7, h8, h9, h10, h11, h12, if_pos, Bool.false_eq_true]
    norm_num [staticSeverityWeight]
  refine ⟨h3, ?_, ?_, ?_⟩
  · rw [hr]
    norm_num [min_def]
  · rw [hr]
    rfl
  · rw [hr]
    norm_num [min_def]


/-- Claim C9 (amended): for a file with extension `.exe` whose bytes
contain `CreateProcess` and no other keyword of the static scan table,
`analyze_file` scores 0.2 + 0.4 = 0.6 with exactly one "extension"
finding and one "keyword" finding. -/
theorem C9_exe_createprocess :
    ∀ c : List Char,
      seqIn "CreateProcess".toList c = true →
      (∀ kv ∈ keywords, kv.1 ≠ "CreateProcess".toList → seqIn kv.1 c = false) →
      analyze_file ".exe" (Option.some c) =
        { threat_score := 6/10,
          threats := [TDThreat.extension ".exe",
                      TDThreat.keyword "CreateProcess".toList ThreatLevel.high] } := by
  intro c hcp hno
  have hm : (".exe" : String) ∈ executableExts := by decide
  have h1 : seqIn "cmd.exe".toList c = false :=
    hno ("cmd.exe".toList, ThreatLevel.medium) (by decide) (by decide)
  have h2 : seqIn "powershell".toList c = false :=
    hno ("powershell".toList, ThreatLevel.medium) (by decide) (by decide)
  have h4 : seqIn "WriteProcessMemory".toList c = false :=
    hno ("WriteProcessMemory".toList, ThreatLevel.high) (by decide) (by decide)
  have h5 : seqIn "curl".toList c = false :=
    hno ("curl".toList, ThreatLevel.low) (by decide) (by decide)
  have h6 : seqIn "wget".toList c = false :=
    hno ("wget".toList, ThreatLevel.low) (by decide) (by decide)
  have h7 : seqIn "socket".toList c = false :=
    hno ("socket".toList, ThreatLevel.medium) (by decide) (by decide)
  have h8 : seqIn "registry".toList c = false :=
    hno ("registry".toList, ThreatLevel.medium) (by decide) (by decide)
  have h9 : seqIn "os.system".toList c = false :=
    hno ("os.system".toList, ThreatLevel.medium) (by decide) (by decide)
  have h10 : seqIn "eval".toList c = false :=
    hno ("eval".toList, ThreatLevel.high) (by decide) (by decide)
  have h11 : seqIn "exec".toList c = false :=
    hno ("exec".toList, ThreatLevel.high) (by decide) (by decide)
  have h12 : seqIn "malicious.example.com".toList c = false :=
    hno ("malicious.example.com".toList, ThreatLevel.high) (by decide) (by decide)
  unfold analyze_file
  simp only [keywords, List.foldl, keywordStep, hm, if_true, if_false,
    h1, h2, hcp, h4, h5, h6, h7, h8, h9, h10, h11, h12, if_pos, Bool.false_eq_true]
  norm_num [staticSeverityWeight, min_def]

/-- Witness for C9 (amended) on bytes that are exactly `CreateProcess`. -/
theorem C9_exe_createprocess_witness :
    analyze_file ".exe" (Option.some "CreateProcess".toList) =
      { threat_score := 6/10,
        threats := [TDThreat.extension ".exe",
                    TDThreat.keyword "CreateProcess".toList ThreatLevel.high] } :=
  C9_exe_createprocess "CreateProcess".toList (by decide) (by decide)

/-! ### Monitor lemmas -/

theorem foldl_preserve {σ α : Type _} (P : σ → Prop) (f : σ → α → σ)
    (hstep : ∀ s a, P s → P (f s a)) :
    ∀ (l : List α) (s : σ), P s → P (List.foldl f s l) := by
  intro l
  induction l with
  | nil => exact fun s hs => hs
  | cons a as ih => exact fun s hs => ih _ (hstep s a hs)

theorem processFileObservation_network (now : Nat) (st : MonitorState) (path : String) :
    (processFileObservation now st path).network_connections = st.network_connections := by
  unfold processFileObservation
  split_ifs <;> rfl

theorem processFileObservation_registry (now : Nat) (st : MonitorState) (path : String) :
    (processFileObservation now st path).registry_activities = st.registry_activities := by
  unfold processFileObservation
  split_ifs <;> rfl

theorem processNetObservation_files (now : Nat) (st : MonitorState) (c : Connection) :
    (processNetObservation now st c).file_accesses = st.file_accesses := by
  rcases c with ⟨status, _ | r⟩
  · rfl
  · unfold processNetObservation
    simp only
    split_ifs <;> rfl

theorem processNetObservation_registry (now : Nat) (st : MonitorState) (c : Connection) :
    (processNetObservation now st c).registry_activities = st.registry_activities := by
  rcases c with ⟨status, _ | r⟩
  · rfl
  · unfold processNetObservation
    simp only
    split_ifs <;> rfl

theorem processDllObservation_files (now : Nat) (st : MonitorState) (dll : String) :
    (processDllObservation now st dll).file_accesses = st.file_accesses := by
  unfold processDllObservation
  simp only
  split_ifs <;> rfl

theorem processDllObservation_network (now : Nat) (st : MonitorState) (dll : String) :
    (processDllObservation now st dll).network_connections = st.network_connections := by
  unfold processDllObservation
  simp only
  split_ifs <;> rfl

theorem processFileObservation_nodup (now : Nat) (st : MonitorState) (path : String)
    (h : (st.file_accesses.map FileRec.path).Nodup) :
    ((processFileObservation now st path).file_accesses.map FileRec.path).Nodup := by
  unfold processFileObservation
  split_ifs with hany
  · exact h
  · have hnot : path ∉ st.file_accesses.map FileRec.path := by
      intro hmem
      rcases List.mem_map.mp hmem with ⟨f, hf, hfp⟩
      exact hany (List.any_eq_true.mpr ⟨f, hf, by simp [hfp]⟩)
    simp [List.nodup_append, h, hnot]

theorem processNetObservation_nodup (now : Nat) (st : MonitorState) (c : Connection)
    (h : (st.network_connections.map NetRec.remote).Nodup) :
    ((processNetObservation now st c).network_connections.map NetRec.remote).Nodup := by
  rcases c with ⟨status, _ | r⟩
  · exact h
  · unfold processNetObservation
    simp only
    split_ifs with hstat hany
    · exact h
    · have hnot : remoteOf r ∉ st.network_connections.map NetRec.remote := by
        intro hmem
        rcases List.mem_map.mp hmem with ⟨n, hn, hnr⟩
        exact hany (List.any_eq_true.mpr ⟨n, hn, by simp [hnr]⟩)
      simp [List.nodup_append, h, hnot]
    · exact h

theorem processDllObservation_nodup (now : Nat) (st : MonitorState) (dll : String)
    (h : (st.registry_activities.map RegRec.dll).Nodup) :
    ((processDllObservation now st dll).registry_activities.map RegRec.dll).Nodup := by
  unfold processDllObservation
  simp only
  split_ifs with hsusp hany
  · exact h
  · have hnot : strLower dll ∉ st.registry_activities.map RegRec.dll := by
      intro hmem
      rcases List.mem_map.mp hmem with ⟨x, hx, hxd⟩
      exact hany (List.any_eq_true.mpr ⟨x, hx, by simp [hxd]⟩)
    simp [List.nodup_append, h, hnot]
  · exact h

theorem processFileObservation_NoDupKeys (now : Nat) (st : MonitorState) (path : String)
    (h : NoDupKeys st) : NoDupKeys (processFileObservation now st path) :=
  ⟨processFileObservation_nodup now st path h.1,
   by rw [processFileObservation_network]; exact h.2.1,
   by rw [processFileObservation_registry]; exact h.2.2⟩

theorem processNetObservation_NoDupKeys (now : Nat) (st : MonitorState) (c : Connection)
    (h : NoDupKeys st) : NoDupKeys (processNetObservation now st c) :=
  ⟨by rw [processNetObservation_files]; exact h.1,
   processNetObservation_nodup now st c h.2.1,
   by rw [processNetObservation_registry]; exact h.2.2⟩

theorem processDllObservation_NoDupKeys (now : Nat) (st : MonitorState) (dll : String)
    (h : NoDupKeys st) : NoDupKeys (processDllObservation now st dll) :=
  ⟨by rw [processDllObservation_files]; exact h.1,
   by rw [processDllObservation_network]; exact h.2.1,
   processDllObservation_nodup now st dll h.2.2⟩

theorem monitor_file_activity_NoDupKeys (now : Nat) (files : List String)
    (st : MonitorState) (h : NoDupKeys st) :
    NoDupKeys (monitor_file_activity now files st) :=
  foldl_preserve NoDupKeys (processFileObservation now)
    (fun s a hs => processFileObservation_NoDupKeys now s a hs) files st h

theorem monitor_network_activity_NoDupKeys (now : Nat) (conns : List Connection)
    (st : MonitorState) (h : NoDupKeys st) :
    NoDupKeys (monitor_network_activity now conns st) :=
  foldl_preserve NoDupKeys (processNetObservation now)
    (fun s a hs => processNetObservation_NoDupKeys now s a hs) conns st h

theorem monitor_registry_activity_NoDupKeys (now : Nat) (dlls : List String)
    (st : MonitorState) (h : NoDupKeys st) :
    NoDupKeys (monitor_registry_activity now dlls st) :=
  foldl_preserve NoDupKeys (processDllObservation now)
    (fun s a hs => processDllObservation_NoDupKeys now s a hs) dlls st h

theorem processFileObservation_recorded (now : Nat) (st : MonitorState) (path : String)
    (h : st.file_accesses.any (fun f => f.path = path) = true) :
    processFileObservation now st path = st := by
  unfold processFileObservation
  rw [if_pos h]

theorem processFileObservation_mem_mono (now : Nat) (st : MonitorState) (p q : String)
    (h : q ∈ st.file_accesses.map FileRec.path) :
    q ∈ (processFileObservation now st p).file_accesses.map FileRec.path := by
  unfold processFileObservation
  split_ifs
  · exact h
  · simp only [List.map_append]
    exact List.mem_append_left _ h

theorem processFileObservation_mem_self (now : Nat) (st : MonitorState) (p : String) :
    p ∈ (processFileObservation now st p).file_accesses.map FileRec.path := by
  unfold processFileObservation
  split_ifs with hany
  · rcases List.any_eq_true.mp hany with ⟨f, hf, hfp⟩
    exact List.mem_map.mpr ⟨f, hf, by simpa using hfp⟩
  · simp

theorem monitor_file_activity_mem (now : Nat) (files : List String) (st : MonitorState)
    (path : String) (h : path ∈ files) :
    path ∈ (monitor_file_activity now files st).file_accesses.map FileRec.path := by
  unfold monitor_file_activity
  induction files generalizing st with
  | nil => cases h
  | cons a as ih =>
    rw [List.foldl_cons]
    rcases List.mem_cons.mp h with rfl | h2
    · exact foldl_preserve (fun s => path ∈ s.file_accesses.map FileRec.path)
        (processFileObservation now)
        (fun s b hs => processFileObservation_mem_mono now s b path hs) as _
        (processFileObservation_mem_self now st path)
    · exact ih (processFileObservation now st a) h2

/-! ### C6 -/

/-- Claim C6: the per-class deduplication invariant holds after every
polling tick; a file path already recorded leaves the whole monitor
state unchanged on re-observation (first observation wins, including the
score); and a path observed on a tick has exactly one record. -/
theorem C6_monitor_dedup :
    (∀ (w : Bool) (now : Nat) (files : List String) (conns : List Connection)
        (dlls : List String) (st : MonitorState),
      NoDupKeys st → NoDupKeys (monitorTick w now files conns dlls st)) ∧
    (∀ (now : Nat) (st : MonitorState) (path : String),
      st.file_accesses.any (fun f => f.path = path) = true →
      monitor_file_activity now [path] st = st) ∧
    (∀ (now : Nat) (files : List String) (st : MonitorState) (path : String),
      NoDupKeys st → path ∈ files →
      ((monitor_file_activity now files st).file_accesses.map FileRec.path).count path
        = 1) := by
  refine ⟨?_, ?_, ?_⟩
  · intro w now files conns dlls st h
    unfold monitorTick
    split_ifs
    · exact monitor_registry_activity_NoDupKeys now dlls _
        (monitor_network_activity_NoDupKeys now conns _
          (monitor_file_activity_NoDupKeys now files st h))
    · exact monitor_network_activity_NoDupKeys now conns _
        (monitor_file_activity_NoDupKeys now files st h)
  · intro now st path h
    show List.foldl (processFileObservation now) st [path] = st
    rw [List.foldl_cons, processFileObservation_recorded now st path h, List.foldl_nil]
  · intro now files st path hd h
    have hnodup := (monitor_file_activity_NoDupKeys now files st hd).1
    have hmem := monitor_file_activity_mem now files st path h
    have hle := List.nodup_iff_count_le_one.mp hnodup path
    have hge : 0 < ((monitor_file_activity now files st).file_accesses.map
        FileRec.path).count path := List.count_pos_iff.mpr hmem
    omega

/-- Witness for C6: a recorded path re-observed is a no-op, and a path
observed twice within one tick yields exactly one record. -/
theorem C6_monitor_dedup_witness :
    monitor_file_activity 1 ["/tmp/a"]
      { file_accesses := [{ timestamp := 0, path := "/tmp/a" }],
        network_connections := [], registry_activities := [], threat_score := 7 } =
      { file_accesses := [{ timestamp := 0, path := "/tmp/a" }],
        network_connections := [], registry_activities := [], threat_score := 7 } ∧
    ((monitor_file_activity 5 ["/etc/passwd", "/etc/passwd"]
      { file_accesses := [], network_connections := [], registry_activities := [],
        threat_score := 0 }).file_accesses.map FileRec.path).count "/etc/passwd" = 1 :=
  ⟨C6_monitor_dedup.2.1 1
    { file_accesses := [{ timestamp := 0, path := "/tmp/a" }],
      network_connections := [], registry_activities := [], threat_score := 7 }
    "/tmp/a" (by decide),
   C6_monitor_dedup.2.2 5 ["/etc/passwd", "/etc/passwd"]
    { file_accesses := [], network_connections := [], registry_activities := [],
      threat_score := 0 } "/etc/passwd" (by decide) (by decide)⟩

/-! ### C7 -/

/-- Claim C7 counterexample: the same established suspicious connection
observed on two polling ticks is recorded once but scored twice — the
score reaches 40, not 20, because the scoring loop sits outside the
deduplication guard. -/
theorem C7_network_score_counterexample :
    (monitor_network_activity 0
      [{ status := "ESTABLISHED", raddr := Option.some ("1.2.3.4", 4444) }]
      { file_accesses := [], network_connections := [], registry_activities := [],
        threat_score := 0 }).threat_score = 20 ∧
    (monitor_network_activity 1
      [{ status := "ESTABLISHED", raddr := Option.some ("1.2.3.4", 4444) }]
      (monitor_network_activity 0
        [{ status := "ESTABLISHED", raddr := Option.some ("1.2.3.4", 4444) }]
        { file_accesses := [], network_connections := [], registry_activities := [],
          threat_score := 0 })).network_connections.length = 1 ∧
    (monitor_network_activity 1
      [{ status := "ESTABLISHED", raddr := Option.some ("1.2.3.4", 4444) }]
      (monitor_network_activity 0
        [{ status := "ESTABLISHED", raddr := Option.some ("1.2.3.4", 4444) }]
        { file_accesses := [], network_connections := [], registry_activities := [],
          threat_score := 0 })).threat_score = 40 ∧
    ¬ (monitor_network_activity 1
      [{ status := "ESTABLISHED", raddr := Option.some ("1.2.3.4", 4444) }]
      (monitor_network_activity 0
        [{ status := "ESTABLISHED", raddr := Option.some ("1.2.3.4", 4444) }]
        { file_accesses := [], network_connections := [], registry_activities := [],
          threat_score := 0 })).threat_score = 20 := by
  refine ⟨by decide, by decide, by decide, by decide⟩

/-- Claim C7 (amended): every observation of an established connection
adds 20 points per matching suspicious indicator to the running score,
whether or not the endpoint is already recorded (the deduplication guard
covers only the record list): a repeat observation leaves the records
unchanged but still adds the increment. -/
theorem C7_network_score :
    ∀ (st : MonitorState) (now : Nat) (ip : String) (port : Nat),
      (processNetObservation now st
        { status := "ESTABLISHED", raddr := Option.some (ip, port) }).threat_score =
        st.threat_score +
          20 * (suspiciousNetworkPatterns.countP
            (fun p => strIn p (remoteOf (ip, port))) : Int) ∧
      (st.network_connections.any
          (fun n => n.remote = remoteOf (ip, port)) = true →
        processNetObservation now st
          { status := "ESTABLISHED", raddr := Option.some (ip, port) } =
          { st with threat_score := st.threat_score +
              20 * (suspiciousNetworkPatterns.countP
                (fun p => strIn p (remoteOf (ip, port))) : Int) }) := by
  intro st now ip port
  constructor
  · unfold processNetObservation
    simp only [eq_self_iff_true, if_true]
    split_ifs with hany
    · rfl
    · rfl
  · intro h
    unfold processNetObservation
    simp only [eq_self_iff_true, if_true]
    rw [if_pos h]

/-- Witness for C7 (amended): a second observation of a recorded
suspicious endpoint changes only the score, by exactly +20. -/
theorem C7_network_score_witness :
    processNetObservation 1
      { file_accesses := [], registry_activities := [],
        network_connections := [{ timestamp := 0, remote := "1.2.3.4:4444" }],
        threat_score := 20 }
      { status := "ESTABLISHED", raddr := Option.some ("1.2.3.4", 4444) } =
      { file_accesses := [], registry_activities := [],
        network_connections := [{ timestamp := 0, remote := "1.2.3.4:4444" }],
        threat_score := 20 + 20 *
          (suspiciousNetworkPatterns.countP
            (fun p => strIn p (remoteOf ("1.2.3.4", 4444))) : Int) } :=
  (C7_network_score
    { file_accesses := [], registry_activities := [],
      network_connections := [{ timestamp := 0, remote := "1.2.3.4:4444" }],
      threat_score := 20 } 1 "1.2.3.4" 4444).2 (by decide)

end SafeRun
